import Mathlib

/-!
# Verification of the nim-chat retrieval engine against its specification

Shallow embedding of the retrieval core of the `microservices-rag` code base:

* `faiss_manager.py` — per-document FAISS vector index (build, search, delete);
* `vector_search.py` — service routes, including the multi-document fan-out
  similarity search;
* `rag_pipeline.py` — the retrieval orchestrator (context search, confidence);
* `text_splitter.py` — the chunking loop;
* `chunk_manager.py` — chunk persistence.

Conventions of the embedding:

* Python floats are embedded as rationals (`ℚ`); document, embedding and chunk
  UUIDs as natural numbers.
* The FAISS flat inner-product index (`faiss.IndexFlatIP`) is external library
  code; it is embedded by its documented behaviour: an exhaustive scan
  returning the `k` best inner-product scores in descending order, ties broken
  by ascending internal slot (insertion) id.
* `faiss.normalize_L2` (also external, irrational in general) is abstracted as
  a function parameter `norm`; every theorem below is universally quantified
  over it, and concrete evaluations instantiate `norm := id`, which agrees with
  `normalize_L2` on inputs that already have unit L2 norm (such as `[1, 0]`).
* Python exceptions are embedded as an explicit error type threaded through
  `Except`; a Python `except E` clause matches exactly the constructors
  embedding subclasses of `E`.
-/

/-- Modelled from the spec: `shared/utils/exceptions.py` is not part of the
given sources (only its import sites are).  §7 of the spec gives the taxonomy:
`NotFoundError` (no chunk/index for the given id) and `ProcessingError`
(failure inside a pipeline step, carrying a step tag) are distinct error
types.  `httpStatusError` embeds an HTTP error status surfaced to a client
(FastAPI `HTTPException` / httpx `raise_for_status`). -/
inductive Err where
  | documentNotFound (msg : String)
  | processingError (step : String) (msg : String)
  | httpStatusError (status : Nat) (msg : String)
deriving DecidableEq, Repr

/-- `str(e)` on an embedded exception: its message text. -/
def Err.message : Err → String
  | .documentNotFound m => m
  | .processingError _ m => m
  | .httpStatusError _ m => m

instance exceptDecEq {ε α : Type} [DecidableEq ε] [DecidableEq α] :
    DecidableEq (Except ε α) := fun x y =>
  match x, y with
  | .error a, .error b =>
    if h : a = b then .isTrue (by rw [h])
    else .isFalse (fun hc => h (Except.error.inj hc))
  | .error _, .ok _ => .isFalse (fun hc => Except.noConfusion hc)
  | .ok _, .error _ => .isFalse (fun hc => Except.noConfusion hc)
  | .ok a, .ok b =>
    if h : a = b then .isTrue (by rw [h])
    else .isFalse (fun hc => h (Except.ok.inj hc))

/-- One entry of the result list built by `search_vectors`
(`faiss_manager.py:299-305`): the dict
`{embedding_id, chunk_id, document_id, similarity_score, rank}`. -/
structure SearchHit where
  embedding_id : Nat
  chunk_id : Nat
  document_id : Nat
  similarity_score : ℚ
  rank : Nat
deriving DecidableEq, Repr

/-- The persisted state of one per-document index: the stored vectors (in
slot order) together with the id mapping written by `create_index`
(`faiss_manager.py:171-174`). -/
structure IndexData where
  vectors : List (List ℚ)
  embedding_ids : List Nat
  chunk_ids : List Nat
deriving DecidableEq, Repr

/-- The vector store: per document id, the index data if an index exists
(i.e. the `.faiss` and `_mapping.pkl` files are both present,
`faiss_manager.py:246`). -/
def Store := Nat → Option IndexData

/-- Inner product of two vectors (`faiss.IndexFlatIP` metric).  Like numpy,
trailing coordinates of the longer vector are irrelevant once both are stored
at the index dimension. -/
def dot (u v : List ℚ) : ℚ := (List.zipWith (· * ·) u v).sum

/-- Candidate order of the flat index scan: descending score, ties broken by
ascending internal slot id.  A candidate is a `(score, slot)` pair, slot as
`Int` because FAISS pads missing results with slot `-1`. -/
def candLE (a b : ℚ × Int) : Prop :=
  b.1 < a.1 ∨ (a.1 = b.1 ∧ a.2 ≤ b.2)

instance : DecidableRel candLE := fun a b =>
  inferInstanceAs (Decidable (b.1 < a.1 ∨ (a.1 = b.1 ∧ a.2 ≤ b.2)))

instance candLE_total : IsTotal (ℚ × Int) candLE where
  total a b := by
    rcases lt_trichotomy a.1 b.1 with h | h | h
    · exact Or.inr (Or.inl h)
    · rcases le_total a.2 b.2 with h2 | h2
      · exact Or.inl (Or.inr ⟨h, h2⟩)
      · exact Or.inr (Or.inr ⟨h.symm, h2⟩)
    · exact Or.inl (Or.inl h)

instance candLE_trans : IsTrans (ℚ × Int) candLE where
  trans a b c hab hbc := by
    rcases hab with h | ⟨he, hle⟩
    · rcases hbc with h' | ⟨he', _⟩
      · exact Or.inl (h'.trans h)
      · exact Or.inl (he' ▸ h)
    · rcases hbc with h' | ⟨he', hle'⟩
      · exact Or.inl (he ▸ h')
      · exact Or.inr ⟨he.trans he', hle.trans hle'⟩

/-- The raw `(score, slot)` candidates of the stored vectors against a query:
every slot scored by inner product, in slot order. -/
def scoredSlots (vectors : List (List ℚ)) (q : List ℚ) : List (ℚ × Int) :=
  (vectors.map (dot q)).enum.map (fun p => (p.2, (p.1 : Int)))

/-- `index.search(query, min(top_k, index.ntotal))` on a flat inner-product
index (`faiss_manager.py:285`): the `min(top_k, ntotal)` best candidates,
descending score, ties by ascending slot. -/
def rawCandidates (vectors : List (List ℚ)) (q : List ℚ) (top_k : Nat) :
    List (ℚ × Int) :=
  (List.insertionSort candLE (scoredSlots vectors q)).take
    (min top_k vectors.length)

/-- The result-processing loop of `search_vectors`
(`faiss_manager.py:288-305`): enumerate the raw candidates from position `i`,
skip slot `-1`, skip scores below the threshold, look the slot up in the id
mapping, and stamp each kept result with `rank := position + 1`. -/
def processResults (embedding_ids chunk_ids : List Nat) (doc : Nat)
    (threshold : ℚ) : List (ℚ × Int) → Nat → List SearchHit
  | [], _ => []
  | (score, idx) :: rest, i =>
    if idx = -1 then processResults embedding_ids chunk_ids doc threshold rest (i + 1)
    else if score < threshold then
      processResults embedding_ids chunk_ids doc threshold rest (i + 1)
    else
      { embedding_id := embedding_ids.getD idx.toNat 0
        chunk_id := chunk_ids.getD idx.toNat 0
        document_id := doc
        similarity_score := score
        rank := i + 1 } ::
        processResults embedding_ids chunk_ids doc threshold rest (i + 1)

/-- The body of `search_vectors` once the index is loaded: normalize the
query, run the flat scan, process the results. -/
def searchResults (doc : Nat) (d : IndexData) (norm : List ℚ → List ℚ)
    (query_vector : List ℚ) (top_k : Nat) (threshold : ℚ) : List SearchHit :=
  processResults d.embedding_ids d.chunk_ids doc threshold
    (rawCandidates d.vectors (norm query_vector) top_k) 0

/-- `_load_index` (`faiss_manager.py:230-263`): raises `DocumentNotFoundError`
when the index or mapping file for the document does not exist. -/
def load_index (store : Store) (doc : Nat) : Except Err IndexData :=
  match store doc with
  | none => .error (.documentNotFound ("Index not found for document " ++ toString doc))
  | some d => .ok d

/-- `search_vectors` (`faiss_manager.py:265-311`).  The whole body is inside
`try: ... except Exception as e: raise ProcessingError("vector_search", ...)`,
so every failure — including the `DocumentNotFoundError` raised by
`_load_index` — is re-raised as a `ProcessingError`. -/
def search_vectors (store : Store) (doc : Nat) (norm : List ℚ → List ℚ)
    (query_vector : List ℚ) (top_k : Nat) (threshold : ℚ) :
    Except Err (List SearchHit) :=
  match load_index store doc with
  | .error e =>
      .error (.processingError "vector_search"
        ("Failed to search vectors: " ++ e.message))
  | .ok d => .ok (searchResults doc d norm query_vector top_k threshold)

/-- `delete_index` (`faiss_manager.py:341-370`): unlinks the index, metadata
and mapping files; returns whether anything existed.  On the `Store`
abstraction (an index exists iff its files do) this removes the document's
entry. -/
def delete_index (store : Store) (doc : Nat) : Bool × Store :=
  ((store doc).isSome, fun d => if d = doc then none else store d)

/-! ## Service routes (`vector_search.py`) -/

/-- The `/vector/search` route (`vector_search.py:70-129`).  Errors become
HTTP statuses: `except DocumentNotFoundError` → 404, `except Exception` → 500
with `str(e)` as detail.  A missing `document_id` raises a `ProcessingError`
inside the `try`, hence a 500. -/
def vector_search_endpoint (store : Store) (norm : List ℚ → List ℚ)
    (document_id : Option Nat) (query_vector : List ℚ) (top_k : Nat)
    (threshold : ℚ) : Except (Nat × String) (List SearchHit) :=
  match document_id with
  | none => .error (500, "document_id is required for vector search")
  | some doc =>
    match search_vectors store doc norm query_vector top_k threshold with
    | .ok results => .ok results
    | .error (.documentNotFound m) => .error (404, m)
    | .error e => .error (500, e.message)

/-- The per-document fan-out loop of the `/vector/similarity` route
(`vector_search.py:156-168`): each document is searched with `top_k * 2`;
only `except DocumentNotFoundError` is caught (`continue`); any other
exception escapes the loop. -/
def fanout_search (store : Store) (norm : List ℚ → List ℚ)
    (query_vector : List ℚ) (top_k2 : Nat) (threshold : ℚ) :
    List Nat → Except Err (List SearchHit)
  | [] => .ok []
  | doc :: rest =>
    match search_vectors store doc norm query_vector top_k2 threshold with
    | .ok doc_results =>
        (fanout_search store norm query_vector top_k2 threshold rest).map
          (doc_results ++ ·)
    | .error (.documentNotFound _) =>
        fanout_search store norm query_vector top_k2 threshold rest
    | .error e => .error e

/-- Descending-score order used by
`all_results.sort(key=..., reverse=True)` (`vector_search.py:171`); Python's
sort is stable, as is `List.insertionSort`. -/
def hitGE (a b : SearchHit) : Prop := b.similarity_score ≤ a.similarity_score

instance : DecidableRel hitGE := fun a b =>
  inferInstanceAs (Decidable (b.similarity_score ≤ a.similarity_score))

/-- The `/vector/similarity` route (`vector_search.py:132-208`) over an
explicit document list: fan out, sort descending by score, truncate to
`top_k`.  The whole body sits in `try: ... except Exception` mapped to an
HTTP 500, so an exception escaping the fan-out loop aborts the route. -/
def similarity_search (store : Store) (norm : List ℚ → List ℚ)
    (document_ids : List Nat) (query_vector : List ℚ) (top_k : Nat)
    (threshold : ℚ) : Except Err (List SearchHit) :=
  match fanout_search store norm query_vector (top_k * 2) threshold document_ids with
  | .error e => .error (.httpStatusError 500 e.message)
  | .ok all_results =>
      .ok ((List.insertionSort hitGE all_results).take top_k)

/-! ## Retrieval orchestrator (`rag_pipeline.py`) -/

/-- `_search_contexts` (`rag_pipeline.py:173-214`).  With no `document_id` it
raises `ProcessingError("search_scope", ...)` — the global-search branch is
explicitly unimplemented.  With a `document_id` it posts to the vector-store
search route; `response.raise_for_status()` turns an HTTP error status into
an exception that is not an `httpx.RequestError` and therefore propagates;
on success the results are filtered to scores `>= similarity_threshold`. -/
def search_contexts (store : Store) (norm : List ℚ → List ℚ)
    (query_vector : List ℚ) (document_id : Option Nat) (top_k : Nat)
    (similarity_threshold : ℚ) : Except Err (List SearchHit) :=
  match document_id with
  | none =>
      .error (.processingError "search_scope"
        "Document ID is required for vector search")
  | some doc =>
    match vector_search_endpoint store norm (some doc) query_vector top_k
        similarity_threshold with
    | .error (status, m) => .error (.httpStatusError status m)
    | .ok results =>
        .ok (results.filter (fun r => similarity_threshold ≤ r.similarity_score))

/-- Python `max` over a non-empty list (`[]` case is never reached by the
caller, which guards on emptiness first). -/
def listMax : List ℚ → ℚ
  | [] => 0
  | h :: t => t.foldl max h

/-- `_calculate_confidence` (`rag_pipeline.py:301-316`), as a function of the
similarity scores of the resolved contexts (`answer_question` passes
`contexts_with_content`, each carrying its `similarity_score`). -/
def calculate_confidence (contexts : List ℚ) : ℚ :=
  if contexts.isEmpty then 1/10
  else
    let max_similarity := listMax contexts
    let context_bonus := min ((contexts.length : ℚ) * (1/10)) (3/10)
    let base_confidence := max_similarity * (7/10) + context_bonus
    min base_confidence (19/20)

/-! ## On-disk artifacts and failure cleanup -/

/-- Which of the three per-document artifacts of the vector store exist on
disk: `{document_id}.faiss`, `{document_id}_mapping.pkl`,
`{document_id}_index.json` (`faiss_manager.py:45-55`). -/
structure VsFiles where
  indexFile : Bool
  mappingFile : Bool
  metadataFile : Bool
deriving DecidableEq, Repr

/-- The vector-store file system: per document id, which artifacts exist. -/
def VsFS := Nat → VsFiles

/-- No artifacts. -/
def noVsFiles : VsFiles := ⟨false, false, false⟩

/-- Update one document's artifact set. -/
def vsUpdate (fs : VsFS) (doc : Nat) (g : VsFiles → VsFiles) : VsFS :=
  fun d => if d = doc then g (fs d) else fs d

/-- The three writes of `create_index`, in program order: index file
(`faiss_manager.py:168`), mapping file (line 177), metadata file
(line 197). -/
def vsWrite : Nat → VsFiles → VsFiles
  | 0, f => { f with indexFile := true }
  | 1, f => { f with mappingFile := true }
  | _, f => { f with metadataFile := true }

/-- Perform the first `n` of the three writes of `create_index`. -/
def vsWriteSteps (fs : VsFS) (doc : Nat) (n : Nat) : VsFS :=
  (List.range (min n 3)).foldl (fun s k => vsUpdate s doc (vsWrite k)) fs

/-- The length-validation guard of `create_index` (`faiss_manager.py:114`):
`if not vectors or len(vectors) != len(embedding_ids) != len(chunk_ids)`.
Python chains the comparison, so it reads
`len(vectors) != len(embedding_ids) AND len(embedding_ids) != len(chunk_ids)`. -/
def create_index_guard (vectors : List (List ℚ))
    (embedding_ids chunk_ids : List Nat) : Bool :=
  vectors.isEmpty ||
    ((vectors.length != embedding_ids.length) &&
      (embedding_ids.length != chunk_ids.length))

/-- The hard-coded expected dimension of `create_index`
(`faiss_manager.py:138`): 384, the output width of `all-MiniLM-L6-v2`. -/
def expected_dim : Nat := 384

/-- The dimension coercion of `create_index` (`faiss_manager.py:141-153`) on
a rectangular batch of width `actual_dim`: pad each vector with trailing
zeros when narrower than `expected_dim`, truncate each vector to its first
`expected_dim` components when wider. -/
def adjust_dimension (vectors : List (List ℚ)) (actual_dim : Nat) :
    List (List ℚ) :=
  if actual_dim ≠ expected_dim then
    if actual_dim < expected_dim then
      vectors.map (fun v => v ++ List.replicate (expected_dim - actual_dim) 0)
    else
      vectors.map (fun v => v.take expected_dim)
  else vectors

/-- `create_index` (`faiss_manager.py:104-228`) at the file-system level.
`failAt = some n` injects an exception inside the `try` block after `n` of
the three file writes have completed (`n = 0`: during validation or vector
conversion, before any write); the `except` clause (lines 218-228) then
unlinks whichever of the three artifacts exist and re-raises as
`ProcessingError("index_creation", ...)`.  `failAt = none` is the
exception-free run.  The length guard (line 114) sits before the `try`, so a
guard failure performs no writes and no cleanup. -/
def create_index (fs : VsFS) (doc : Nat) (vectors : List (List ℚ))
    (embedding_ids chunk_ids : List Nat) (failAt : Option Nat) :
    Except Err Unit × VsFS :=
  if create_index_guard vectors embedding_ids chunk_ids then
    (.error (.processingError "index_creation"
      "Vector, embedding_id, and chunk_id lists must have same length"), fs)
  else
    match failAt with
    | some n =>
        let fs1 := vsWriteSteps fs doc n
        let fs2 := vsUpdate fs1 doc (fun _ => noVsFiles)
        (.error (.processingError "index_creation"
          "Failed to create FAISS index"), fs2)
    | none => (.ok (), vsWriteSteps fs doc 3)

/-- Which of the two per-document artifacts of the chunk store exist:
`{document_id}.json` and `{document_id}_metadata.json`
(`chunk_manager.py:38-44`). -/
structure ChunkFiles where
  chunksFile : Bool
  metadataFile : Bool
deriving DecidableEq, Repr

/-- The chunk-store file system. -/
def ChunkFS := Nat → ChunkFiles

/-- Update one document's chunk artifacts. -/
def chunkUpdate (fs : ChunkFS) (doc : Nat) (g : ChunkFiles → ChunkFiles) :
    ChunkFS :=
  fun d => if d = doc then g (fs d) else fs d

/-- The two writes of `save_chunks`, in program order: chunks file
(`chunk_manager.py:55`), metadata file (line 67). -/
def chunkWrite : Nat → ChunkFiles → ChunkFiles
  | 0, f => { f with chunksFile := true }
  | _, f => { f with metadataFile := true }

/-- Perform the first `n` of the two writes of `save_chunks`. -/
def chunkWriteSteps (fs : ChunkFS) (doc : Nat) (n : Nat) : ChunkFS :=
  (List.range (min n 2)).foldl (fun s k => chunkUpdate s doc (chunkWrite k)) fs

/-- `save_chunks` (`chunk_manager.py:46-80`) at the file-system level.
`failAt = some n` injects an exception after `n` of the two writes; the
`except` clause (lines 73-80) unlinks whichever of the two artifacts exist
and re-raises as `ProcessingError("chunk_save", ...)`. -/
def save_chunks (fs : ChunkFS) (doc : Nat) (failAt : Option Nat) :
    Except Err Bool × ChunkFS :=
  match failAt with
  | some n =>
      let fs1 := chunkWriteSteps fs doc n
      let fs2 := chunkUpdate fs1 doc (fun _ => ⟨false, false⟩)
      (.error (.processingError "chunk_save" "Failed to save chunks"), fs2)
  | none => (.ok true, chunkWriteSteps fs doc 2)

/-! ## Text splitter (`text_splitter.py`) -/

/-- Python `str.strip()`: remove leading and trailing whitespace. -/
def pyStrip (s : List Char) : List Char :=
  ((s.dropWhile Char.isWhitespace).reverse.dropWhile Char.isWhitespace).reverse

/-- Whether `sep` occurs in `text` starting at `i` and ending no later than
`endPos` (the exclusive bound of a Python `str.rfind(sep, start, end)`). -/
def occursAt (text sep : List Char) (endPos i : Nat) : Bool :=
  decide (i + sep.length ≤ endPos) && ((text.drop i).take sep.length == sep)

/-- Python `text.rfind(sep, searchStart, endPos)`: the largest start position
of an occurrence of `sep` inside `text[searchStart:endPos]`, or `-1`.  The
callers only pass non-negative bounds. -/
def rfind (text sep : List Char) (searchStart endPos : Nat) : Int :=
  match ((List.range' searchStart (endPos - searchStart)).filter
      (occursAt text sep endPos)).getLast? with
  | some i => (i : Int)
  | none => -1

/-- The separator loop of `_find_best_split_position`
(`text_splitter.py:142-154`): first separator in priority order, searched
backwards near the window end, whose occurrence starts strictly after
`start_pos`; an empty separator cuts at the window end; no separator found
cuts at the window end. -/
def find_best_split_aux (text : List Char) (start_pos max_end_pos : Nat) :
    List (List Char) → Nat
  | [] => max_end_pos
  | sep :: rest =>
    if sep.isEmpty then max_end_pos
    else
      let search_start := max start_pos (max_end_pos - sep.length)
      let pos := rfind text sep search_start max_end_pos
      if pos ≠ -1 ∧ (start_pos : Int) < pos then pos.toNat + sep.length
      else find_best_split_aux text start_pos max_end_pos rest

/-- `_find_best_split_position` (`text_splitter.py:129-154`). -/
def find_best_split_position (text : List Char) (start_pos max_end_pos : Nat)
    (separators : List (List Char)) : Nat :=
  if text.length ≤ max_end_pos then text.length
  else find_best_split_aux text start_pos max_end_pos separators

/-- The next-window-start computation of `_split_into_chunks`
(`text_splitter.py:119-123`): `max(current_pos + 1, best_split_pos -
chunk_overlap)`, followed by the (redundant) infinite-loop guard that resets
to `current_pos + 1` whenever the result is not an advance. -/
def next_start (best_split_pos current_pos chunk_overlap : Nat) : Nat :=
  let ns := max (current_pos + 1) (best_split_pos - chunk_overlap)
  if ns ≤ current_pos then current_pos + 1 else ns

/-- One chunk record built by `_split_into_chunks`
(`text_splitter.py:104-114`); the `document_id` and the derived `metadata`
dict (content length, separator used) are omitted. -/
structure TextChunk where
  content : List Char
  chunk_index : Nat
  start_position : Nat
  end_position : Nat
deriving DecidableEq, Repr

/-- The `while current_pos < len(text)` loop of `_split_into_chunks`
(`text_splitter.py:91-125`), with explicit fuel: each iteration cuts a window
at `_find_best_split_position`, keeps the stripped content when non-empty,
and advances to `next_start`.  The fuel only bounds the number of
iterations; `split_loop_fuel_independent` below shows `text.length -
current_pos` iterations always suffice, i.e. the loop terminates. -/
def split_into_chunks_loop (text : List Char) (chunk_size chunk_overlap : Nat)
    (separators : List (List Char)) :
    Nat → Nat → Nat → List TextChunk
  | 0, _, _ => []
  | fuel + 1, current_pos, chunk_index =>
    if current_pos < text.length then
      let end_pos := min (current_pos + chunk_size) text.length
      let best_split_pos := find_best_split_position text current_pos end_pos separators
      let chunk_content := pyStrip ((text.drop current_pos).take (best_split_pos - current_pos))
      if chunk_content.isEmpty then
        split_into_chunks_loop text chunk_size chunk_overlap separators fuel
          (next_start best_split_pos current_pos chunk_overlap) chunk_index
      else
        { content := chunk_content
          chunk_index := chunk_index
          start_position := current_pos
          end_position := best_split_pos } ::
          split_into_chunks_loop text chunk_size chunk_overlap separators fuel
            (next_start best_split_pos current_pos chunk_overlap) (chunk_index + 1)
    else []

/-- `_split_into_chunks` (`text_splitter.py:77-127`): run the loop from
position 0 with enough fuel. -/
def split_into_chunks (text : List Char) (chunk_size chunk_overlap : Nat)
    (separators : List (List Char)) : List TextChunk :=
  split_into_chunks_loop text chunk_size chunk_overlap separators text.length 0 0

/-! ## The L2-metric flat index

`_create_faiss_index` (`faiss_manager.py:68-72`) builds `IndexFlatL2` when
`config.metric_type` is not `"IP"`.  A flat L2 index returns squared
Euclidean distances in ascending order (closest first), ties again by
ascending slot; `search_vectors` runs the same result-processing loop on
them. -/

/-- Squared Euclidean distance (`IndexFlatL2` metric). -/
def sqDist (u v : List ℚ) : ℚ :=
  (List.zipWith (fun a b => (a - b) * (a - b)) u v).sum

/-- Candidate order of the flat L2 scan: ascending distance, ties by
ascending slot. -/
def candLE_L2 (a b : ℚ × Int) : Prop :=
  a.1 < b.1 ∨ (a.1 = b.1 ∧ a.2 ≤ b.2)

instance : DecidableRel candLE_L2 := fun a b =>
  inferInstanceAs (Decidable (a.1 < b.1 ∨ (a.1 = b.1 ∧ a.2 ≤ b.2)))

/-- The raw `(distance, slot)` candidates of an L2 index. -/
def scoredSlotsL2 (vectors : List (List ℚ)) (q : List ℚ) : List (ℚ × Int) :=
  (vectors.map (sqDist q)).enum.map (fun p => (p.2, (p.1 : Int)))

/-- `index.search(query, min(top_k, ntotal))` on a flat L2 index. -/
def rawCandidatesL2 (vectors : List (List ℚ)) (q : List ℚ) (top_k : Nat) :
    List (ℚ × Int) :=
  (List.insertionSort candLE_L2 (scoredSlotsL2 vectors q)).take
    (min top_k vectors.length)

/-- The body of `search_vectors` over an L2-metric index. -/
def searchResultsL2 (doc : Nat) (d : IndexData) (norm : List ℚ → List ℚ)
    (query_vector : List ℚ) (top_k : Nat) (threshold : ℚ) : List SearchHit :=
  processResults d.embedding_ids d.chunk_ids doc threshold
    (rawCandidatesL2 d.vectors (norm query_vector) top_k) 0

/-! ## Helper lemmas -/

theorem processResults_length_le (me mc : List Nat) (doc : Nat) (t : ℚ) :
    ∀ (cands : List (ℚ × Int)) (i : Nat),
      (processResults me mc doc t cands i).length ≤ cands.length := by
  intro cands
  induction cands with
  | nil => intro i; simp [processResults]
  | cons c rest ih =>
    intro i
    obtain ⟨s, idx⟩ := c
    simp only [processResults]
    split
    · exact (ih (i + 1)).trans (Nat.le_succ _)
    · split
      · exact (ih (i + 1)).trans (Nat.le_succ _)
      · simpa using Nat.succ_le_succ (ih (i + 1))

theorem processResults_score_ge (me mc : List Nat) (doc : Nat) (t : ℚ) :
    ∀ (cands : List (ℚ × Int)) (i : Nat) (h : SearchHit),
      h ∈ processResults me mc doc t cands i → t ≤ h.similarity_score := by
  intro cands
  induction cands with
  | nil => intro i h hm; simp [processResults] at hm
  | cons c rest ih =>
    intro i h hm
    obtain ⟨s, idx⟩ := c
    simp only [processResults] at hm
    split at hm
    · exact ih _ _ hm
    · split at hm
      · exact ih _ _ hm
      · rcases List.mem_cons.mp hm with rfl | hm'
        · rename_i hidx hlt
          exact le_of_not_lt hlt
        · exact ih _ _ hm'

theorem processResults_scores_sublist (me mc : List Nat) (doc : Nat) (t : ℚ) :
    ∀ (cands : List (ℚ × Int)) (i : Nat),
      ((processResults me mc doc t cands i).map
        (fun h => h.similarity_score)).Sublist (cands.map Prod.fst) := by
  intro cands
  induction cands with
  | nil => intro i; simp [processResults]
  | cons c rest ih =>
    intro i
    obtain ⟨s, idx⟩ := c
    simp only [processResults]
    split
    · exact (ih (i + 1)).trans (List.sublist_cons_self _ _)
    · split
      · exact (ih (i + 1)).trans (List.sublist_cons_self _ _)
      · simpa using (ih (i + 1)).cons₂ s

theorem processResults_rank_lookup (me mc : List Nat) (doc : Nat) (t : ℚ) :
    ∀ (cands : List (ℚ × Int)) (i : Nat) (h : SearchHit),
      h ∈ processResults me mc doc t cands i →
        i + 1 ≤ h.rank ∧
        ∃ slot : Int, cands[h.rank - 1 - i]? = some (h.similarity_score, slot) ∧
          slot ≠ -1 ∧ ¬ h.similarity_score < t := by
  intro cands
  induction cands with
  | nil => intro i h hm; simp [processResults] at hm
  | cons c rest ih =>
    intro i h hm
    obtain ⟨s, idx⟩ := c
    simp only [processResults] at hm
    split at hm
    · obtain ⟨hr, slot, hs, hslot, hlt⟩ := ih (i + 1) h hm
      refine ⟨by omega, slot, ?_, hslot, hlt⟩
      have hshift : h.rank - 1 - i = (h.rank - 1 - (i + 1)) + 1 := by omega
      rw [hshift]
      simpa using hs
    · split at hm
      · obtain ⟨hr, slot, hs, hslot, hlt⟩ := ih (i + 1) h hm
        refine ⟨by omega, slot, ?_, hslot, hlt⟩
        have hshift : h.rank - 1 - i = (h.rank - 1 - (i + 1)) + 1 := by omega
        rw [hshift]
        simpa using hs
      · rcases List.mem_cons.mp hm with rfl | hm'
        · rename_i hidx hlt
          refine ⟨le_refl _, idx, ?_, hidx, hlt⟩
          simp
        · obtain ⟨hr, slot, hs, hslot, hlt⟩ := ih (i + 1) h hm'
          refine ⟨by omega, slot, ?_, hslot, hlt⟩
          have hshift : h.rank - 1 - i = (h.rank - 1 - (i + 1)) + 1 := by omega
          rw [hshift]
          simpa using hs

theorem scoredSlots_snd (vectors : List (List ℚ)) (q : List ℚ) :
    (scoredSlots vectors q).map Prod.snd =
      (List.range vectors.length).map (fun n : Nat => (n : Int)) := by
  unfold scoredSlots
  rw [List.map_map]
  have hcomp : (Prod.snd ∘ fun p : Nat × ℚ => ((p.2 : ℚ), (p.1 : Int))) =
      (fun n : Nat => (n : Int)) ∘ Prod.fst := rfl
  rw [hcomp, ← List.map_map, List.enum_map_fst, List.length_map]

theorem sorted_scoredSlots_nodup_snd (vectors : List (List ℚ)) (q : List ℚ) :
    ((List.insertionSort candLE (scoredSlots vectors q)).map Prod.snd).Nodup := by
  have hperm : List.Perm
      ((List.insertionSort candLE (scoredSlots vectors q)).map Prod.snd)
      ((scoredSlots vectors q).map Prod.snd) :=
    (List.perm_insertionSort candLE _).map _
  refine hperm.nodup_iff.mpr ?_
  rw [scoredSlots_snd]
  exact List.Nodup.map (fun a b hab => by exact_mod_cast hab) (List.nodup_range _)

theorem sorted_scoredSlots_pairwise (vectors : List (List ℚ)) (q : List ℚ) :
    (List.insertionSort candLE (scoredSlots vectors q)).Pairwise
      (fun a b => b.1 < a.1 ∨ (a.1 = b.1 ∧ a.2 < b.2)) := by
  have hsorted : (List.insertionSort candLE (scoredSlots vectors q)).Pairwise candLE :=
    List.sorted_insertionSort candLE _
  have hne : (List.insertionSort candLE (scoredSlots vectors q)).Pairwise
      (fun a b => a.2 ≠ b.2) :=
    List.pairwise_map.mp (sorted_scoredSlots_nodup_snd vectors q)
  refine (hsorted.and hne).imp ?_
  rintro a b ⟨hle | ⟨heq, hle⟩, hne2⟩
  · exact Or.inl hle
  · exact Or.inr ⟨heq, lt_of_le_of_ne hle hne2⟩

theorem rawCandidates_pairwise (vectors : List (List ℚ)) (q : List ℚ) (k : Nat) :
    (rawCandidates vectors q k).Pairwise
      (fun a b => b.1 < a.1 ∨ (a.1 = b.1 ∧ a.2 < b.2)) :=
  (sorted_scoredSlots_pairwise vectors q).sublist (List.take_sublist _ _)

theorem rawCandidates_length_le (vectors : List (List ℚ)) (q : List ℚ) (k : Nat) :
    (rawCandidates vectors q k).length ≤ k := by
  unfold rawCandidates
  simp only [List.length_take]
  omega

theorem searchResults_scores_pairwise (doc : Nat) (d : IndexData)
    (norm : List ℚ → List ℚ) (q : List ℚ) (k : Nat) (t : ℚ) :
    (searchResults doc d norm q k t).Pairwise
      (fun a b => b.similarity_score ≤ a.similarity_score) := by
  have hcands : ((rawCandidates d.vectors (norm q) k).map Prod.fst).Pairwise
      (fun x y : ℚ => y ≤ x) := by
    refine List.pairwise_map.mpr ?_
    refine (rawCandidates_pairwise d.vectors (norm q) k).imp ?_
    rintro a b (hlt | ⟨heq, _⟩)
    · exact le_of_lt hlt
    · exact le_of_eq heq.symm
  have hmap : ((searchResults doc d norm q k t).map
      (fun h => h.similarity_score)).Pairwise (fun x y : ℚ => y ≤ x) :=
    hcands.sublist (processResults_scores_sublist _ _ _ _ _ _)
  exact List.pairwise_map.mp hmap

/-! ## Claim theorems -/

/-- C9: For every completed answer call, the returned confidence equals 0.1
when no contexts were resolved to content, and otherwise equals
`min(0.95, 0.7 * max_similarity_score + min(0.3, 0.1 * context_count))`,
where `max_similarity_score` is the maximum similarity score among the
resolved contexts and `context_count` is their number
(`rag_pipeline.py:301-316`, called on `contexts_with_content` at line 120). -/
theorem confidence_formula (contexts : List ℚ) :
    calculate_confidence [] = 1/10 ∧
    (contexts ≠ [] →
      calculate_confidence contexts =
        min (19/20)
          (7/10 * listMax contexts +
            min (3/10) (1/10 * (contexts.length : ℚ)))) := by
  refine ⟨rfl, fun h => ?_⟩
  unfold calculate_confidence
  rw [if_neg (by simpa using h)]
  rw [min_comm, mul_comm, min_comm ((contexts.length : ℚ) * (1/10)) (3/10),
    mul_comm ((contexts.length : ℚ)) (1/10)]

/-- Witness for C9 at the concrete context list `[1/2]`. -/
theorem confidence_formula_witness :
    calculate_confidence [(1 : ℚ)/2] =
      min (19/20)
        (7/10 * listMax [(1 : ℚ)/2] +
          min (3/10) (1/10 * (([(1 : ℚ)/2] : List ℚ).length : ℚ))) :=
  (confidence_formula [(1 : ℚ)/2]).2 (by decide)

/-- C6 (code bug): the validation guard of `create_index`
(`faiss_manager.py:114`) uses the chained comparison
`len(vectors) != len(embedding_ids) != len(chunk_ids)`, which is
`len(vectors) != len(embedding_ids) AND len(embedding_ids) != len(chunk_ids)`.
At `vectors` of length 2, `embedding_ids` of length 2 and `chunk_ids` of
length 1 the first disequality is false, so the guard does not fire: the
build is accepted and the index files are created, although the code's own
error message demands that all three lists have the same length. -/
theorem create_index_accepts_mismatched_chunk_ids :
    create_index_guard [[1], [2]] [10, 11] [20] = false ∧
    (create_index (fun _ => noVsFiles) 0 [[1], [2]] [10, 11] [20] none).1 =
      .ok () ∧
    ((create_index (fun _ => noVsFiles) 0 [[1], [2]] [10, 11] [20] none).2 0) =
      ⟨true, true, true⟩ :=
  ⟨rfl, rfl, rfl⟩

/-- C3 (code bug): searching a document with no index (never built, or just
deleted) surfaces `ProcessingError("vector_search", ...)`, not
`DocumentNotFoundError`: the blanket `except Exception` of `search_vectors`
(`faiss_manager.py:310-311`) swallows the `DocumentNotFoundError` raised by
`_load_index` (line 247) and re-raises it as a generic processing error.
The route's `except DocumentNotFoundError` handler (`vector_search.py:124`)
is therefore unreachable for searches. -/
theorem search_missing_index_is_processing_error :
    (search_vectors (fun _ => none) 0 id [1] 5 0 =
      .error (.processingError "vector_search"
        "Failed to search vectors: Index not found for document 0")) ∧
    ((delete_index (fun d => if d = 1 then some ⟨[[1]], [10], [20]⟩ else none)
        1).1 = true) ∧
    (search_vectors
        (delete_index (fun d => if d = 1 then some ⟨[[1]], [10], [20]⟩ else none)
          1).2 1 id [1] 5 0 =
      .error (.processingError "vector_search"
        "Failed to search vectors: Index not found for document 1")) :=
  ⟨rfl, rfl, rfl⟩

/-- C8: on a rectangular batch whose shared width `d` differs from the
expected dimension (the hard-coded 384 of `faiss_manager.py:138`),
`create_index` pads every vector with trailing zeros when `d < 384` and
truncates every vector to its first 384 components when `d > 384`, so every
stored vector ends up with exactly the expected dimension
(`faiss_manager.py:141-153`). -/
theorem adjust_dimension_spec (vectors : List (List ℚ)) (d : Nat)
    (hrect : ∀ v ∈ vectors, v.length = d) (hne : d ≠ expected_dim) :
    (∀ v ∈ adjust_dimension vectors d, v.length = expected_dim) ∧
    (d < expected_dim →
      adjust_dimension vectors d =
        vectors.map (fun v => v ++ List.replicate (expected_dim - d) 0)) ∧
    (expected_dim < d →
      adjust_dimension vectors d = vectors.map (fun v => v.take expected_dim)) := by
  unfold adjust_dimension
  rw [if_pos hne]
  by_cases hlt : d < expected_dim
  · rw [if_pos hlt]
    refine ⟨?_, fun _ => rfl, fun hgt => absurd hlt (by omega)⟩
    intro v hv
    obtain ⟨w, hw, rfl⟩ := List.mem_map.mp hv
    have := hrect w hw
    simp [this]
    omega
  · rw [if_neg hlt]
    refine ⟨?_, fun h => absurd h hlt, fun _ => rfl⟩
    intro v hv
    obtain ⟨w, hw, rfl⟩ := List.mem_map.mp hv
    have := hrect w hw
    simp [this]
    omega

/-- Witness for C8 at a concrete 2-dimensional batch. -/
theorem adjust_dimension_spec_witness :
    (∀ v ∈ adjust_dimension [[1, 2]] 2, v.length = expected_dim) ∧
    (2 < expected_dim →
      adjust_dimension [[1, 2]] 2 =
        [[(1 : ℚ), 2]].map (fun v => v ++ List.replicate (expected_dim - 2) 0)) ∧
    (expected_dim < 2 →
      adjust_dimension [[1, 2]] 2 =
        [[(1 : ℚ), 2]].map (fun v => v.take expected_dim)) :=
  adjust_dimension_spec [[1, 2]] 2 (by decide) (by decide)

/-- C5: a `create_index` run that fails after any number `n` of its three
file writes (`faiss_manager.py:218-228`), and a `save_chunks` run that fails
after any number `m` of its two file writes (`chunk_manager.py:73-80`),
both remove every artifact of that document before surfacing a
`ProcessingError`: afterwards no index, mapping, metadata or chunk file for
the document exists. -/
theorem failed_build_and_save_leave_no_artifacts
    (vfs : VsFS) (cfs : ChunkFS) (doc : Nat) (vectors : List (List ℚ))
    (eids cids : List Nat) (n m : Nat)
    (hguard : create_index_guard vectors eids cids = false) :
    ((create_index vfs doc vectors eids cids (some n)).2 doc = noVsFiles ∧
      (create_index vfs doc vectors eids cids (some n)).1 =
        .error (.processingError "index_creation" "Failed to create FAISS index")) ∧
    ((save_chunks cfs doc (some m)).2 doc = ⟨false, false⟩ ∧
      (save_chunks cfs doc (some m)).1 =
        .error (.processingError "chunk_save" "Failed to save chunks")) := by
  refine ⟨⟨?_, ?_⟩, ?_, ?_⟩
  · simp [create_index, hguard, vsUpdate, noVsFiles]
  · simp [create_index, hguard]
  · simp [save_chunks, chunkUpdate]
  · simp [save_chunks]

/-- Witness for C5: a failed build (after 1 of 3 writes) and a failed save
(after 1 of 2 writes) on a disk that already held every artifact. -/
theorem failed_build_and_save_leave_no_artifacts_witness :
    ((create_index (fun _ => ⟨true, true, true⟩) 5 [[1]] [10] [20]
        (some 1)).2 5 = noVsFiles ∧
      (create_index (fun _ => ⟨true, true, true⟩) 5 [[1]] [10] [20]
        (some 1)).1 =
        .error (.processingError "index_creation" "Failed to create FAISS index")) ∧
    ((save_chunks (fun _ => ⟨true, true⟩) 5 (some 1)).2 5 = ⟨false, false⟩ ∧
      (save_chunks (fun _ => ⟨true, true⟩) 5 (some 1)).1 =
        .error (.processingError "chunk_save" "Failed to save chunks")) :=
  failed_build_and_save_leave_no_artifacts (fun _ => ⟨true, true, true⟩)
    (fun _ => ⟨true, true⟩) 5 [[1]] [10] [20] 1 1 rfl

/-- C2 (amended): for every call to the orchestrator's context-search step
(`_search_contexts`, `rag_pipeline.py:173-214`): when `document_id` is
supplied and an index exists, the contexts are exactly the single-document
vector search on that document (re-filtered to scores `>= threshold`); when
`document_id` is absent, the call fails with
`ProcessingError("search_scope", ...)` — the global fan-out branch is
unimplemented (line 192); and a missing index for the requested document is
a fatal error for the request (the vector-store route answers HTTP 500 and
`raise_for_status` turns it into an exception that no handler catches), not
an empty context set. -/
theorem search_contexts_spec (store : Store) (norm : List ℚ → List ℚ)
    (q : List ℚ) (doc : Nat) (d : IndexData) (k : Nat) (t : ℚ) :
    (search_contexts store norm q none k t =
      .error (.processingError "search_scope"
        "Document ID is required for vector search")) ∧
    (store doc = some d →
      search_contexts store norm q (some doc) k t =
        .ok ((searchResults doc d norm q k t).filter
          (fun r => t ≤ r.similarity_score))) ∧
    (store doc = none →
      search_contexts store norm q (some doc) k t =
        .error (.httpStatusError 500
          ("Failed to search vectors: " ++
            ("Index not found for document " ++ toString doc)))) := by
  refine ⟨rfl, fun hsome => ?_, fun hnone => ?_⟩
  · simp [search_contexts, vector_search_endpoint, search_vectors, load_index,
      hsome]
  · simp [search_contexts, vector_search_endpoint, search_vectors, load_index,
      hnone, Err.message]

/-- Counterexample for C2 as frozen: on a store whose only index is for
document 0, the answer step with `document_id` absent does not fan out — it
fails with `ProcessingError("search_scope", ...)` — and the answer step for
document 1, whose index is missing, does not yield an empty context set. -/
theorem search_contexts_counterexample :
    (search_contexts
        (fun d => if d = 0 then some ⟨[[1]], [10], [20]⟩ else none)
        id [1] none 3 (3/10) =
      .error (.processingError "search_scope"
        "Document ID is required for vector search")) ∧
    search_contexts
        (fun d => if d = 0 then some ⟨[[1]], [10], [20]⟩ else none)
        id [1] (some 1) 3 (3/10) ≠ .ok [] := by
  exact ⟨rfl, by decide⟩

/-- Witness for C2 (amended) on a concrete store holding one index for
document 0 and none for document 1. -/
theorem search_contexts_spec_witness :
    (search_contexts
        (fun d => if d = 0 then some ⟨[[1]], [10], [20]⟩ else none)
        id [1] none 3 (3/10) =
      .error (.processingError "search_scope"
        "Document ID is required for vector search")) ∧
    (search_contexts
        (fun d => if d = 0 then some ⟨[[1]], [10], [20]⟩ else none)
        id [1] (some 0) 3 (3/10) =
      .ok ((searchResults 0 ⟨[[1]], [10], [20]⟩ id [1] 3 (3/10)).filter
        (fun r => (3/10 : ℚ) ≤ r.similarity_score))) ∧
    (search_contexts
        (fun d => if d = 0 then some ⟨[[1]], [10], [20]⟩ else none)
        id [1] (some 1) 3 (3/10) =
      .error (.httpStatusError 500
        ("Failed to search vectors: " ++
          ("Index not found for document " ++ toString 1)))) :=
  ⟨(search_contexts_spec (fun d => if d = 0 then some ⟨[[1]], [10], [20]⟩ else none)
      id [1] 0 ⟨[[1]], [10], [20]⟩ 3 (3/10)).1,
    (search_contexts_spec (fun d => if d = 0 then some ⟨[[1]], [10], [20]⟩ else none)
      id [1] 0 ⟨[[1]], [10], [20]⟩ 3 (3/10)).2.1 rfl,
    (search_contexts_spec (fun d => if d = 0 then some ⟨[[1]], [10], [20]⟩ else none)
      id [1] 1 ⟨[[1]], [10], [20]⟩ 3 (3/10)).2.2 rfl⟩

unseal Rat.add Rat.mul in
/-- C4 (code bug): in the `/vector/similarity` fan-out
(`vector_search.py:155-172`), a document whose index is missing is NOT
skipped: `search_vectors` re-raises the `DocumentNotFoundError` as
`ProcessingError("vector_search", ...)` (`faiss_manager.py:310-311`), the
loop's `except DocumentNotFoundError: continue` (line 166) therefore never
matches, and the exception aborts the whole route with HTTP 500.  Searching
`[0]` alone returns document 0's hits; adding the index-less document 1
turns the same global search into an error instead of merged results. -/
theorem similarity_search_aborts_on_missing_index :
    (similarity_search
        (fun d => if d = 0 then some ⟨[[1], [0]], [10, 11], [20, 21]⟩ else none)
        id [0] [1] 5 0 =
      .ok [⟨10, 20, 0, 1, 1⟩, ⟨11, 21, 0, 0, 2⟩]) ∧
    (similarity_search
        (fun d => if d = 0 then some ⟨[[1], [0]], [10, 11], [20, 21]⟩ else none)
        id [0, 1] [1] 5 0 =
      .error (.httpStatusError 500
        "Failed to search vectors: Index not found for document 1")) := by
  exact ⟨by decide, by decide⟩

theorem next_start_advances (best pos overlap : Nat) :
    next_start best pos overlap = max (best - overlap) (pos + 1) ∧
    pos < next_start best pos overlap := by
  unfold next_start
  have hmax : pos + 1 ≤ max (pos + 1) (best - overlap) := le_max_left _ _
  rw [if_neg (by omega)]
  exact ⟨Nat.max_comm _ _, by omega⟩

theorem split_loop_fuel_independent (text : List Char) (cs co : Nat)
    (seps : List (List Char)) :
    ∀ (f1 f2 pos idx : Nat), text.length - pos ≤ f1 → text.length - pos ≤ f2 →
      split_into_chunks_loop text cs co seps f1 pos idx =
        split_into_chunks_loop text cs co seps f2 pos idx := by
  intro f1
  induction f1 with
  | zero =>
    intro f2 pos idx h1 h2
    have hge : ¬ pos < text.length := by omega
    cases f2 with
    | zero => rfl
    | succ f2' => simp [split_into_chunks_loop, hge]
  | succ f1' ih =>
    intro f2 pos idx h1 h2
    by_cases hpos : pos < text.length
    · cases f2 with
      | zero => omega
      | succ f2' =>
        have hadv := (next_start_advances
          (find_best_split_position text pos (min (pos + cs) text.length) seps)
          pos co).2
        have h1' : text.length -
            next_start (find_best_split_position text pos
              (min (pos + cs) text.length) seps) pos co ≤ f1' := by omega
        have h2' : text.length -
            next_start (find_best_split_position text pos
              (min (pos + cs) text.length) seps) pos co ≤ f2' := by omega
        simp only [split_into_chunks_loop, if_pos hpos]
        split
        · exact ih f2' _ _ h1' h2'
        · rw [ih f2' _ _ h1' h2']
    · cases f2 with
      | zero => simp [split_into_chunks_loop, hpos]
      | succ f2' => simp [split_into_chunks_loop, hpos]

/-- C7: the chunking loop of `_split_into_chunks`
(`text_splitter.py:91-125`) terminates on every input — running it with any
fuel of at least `len(text) - current_pos` iterations gives the same result
as running it with exactly that bound, so the recursion never needs more
steps than remaining characters — and at every iteration the next window
start equals `max(cut_position - chunk_overlap, previous_start + 1)`
(the explicit `max(current_pos + 1, ...)` of line 119 followed by the
redundant guard of lines 122-123), which is strictly greater than the
previous start. -/
theorem chunking_terminates_and_advances (text : List Char) (cs co : Nat)
    (seps : List (List Char)) (pos idx fuel : Nat)
    (hfuel : text.length - pos ≤ fuel) :
    split_into_chunks_loop text cs co seps fuel pos idx =
      split_into_chunks_loop text cs co seps (text.length - pos) pos idx ∧
    ∀ best : Nat, next_start best pos co = max (best - co) (pos + 1) ∧
      pos < next_start best pos co :=
  ⟨split_loop_fuel_independent text cs co seps fuel (text.length - pos) pos idx
      hfuel (le_refl _),
    fun best => next_start_advances best pos co⟩

/-- Witness for C7 on the text `"abc"` with `chunk_size = 2`,
`chunk_overlap = 1`, surplus fuel 10, and the cut position 2. -/
theorem chunking_terminates_and_advances_witness :
    (split_into_chunks_loop ['a', 'b', 'c'] 2 1 [] 10 0 0 =
      split_into_chunks_loop ['a', 'b', 'c'] 2 1 [] (['a', 'b', 'c'].length - 0) 0 0) ∧
    (next_start 2 0 1 = max (2 - 1) (0 + 1) ∧ 0 < next_start 2 0 1) :=
  ⟨(chunking_terminates_and_advances ['a', 'b', 'c'] 2 1 [] 0 0 10 (by decide)).1,
    (chunking_terminates_and_advances ['a', 'b', 'c'] 2 1 [] 0 0 10 (by decide)).2 2⟩

/-- C1 (amended): for every per-document index and every search call,
`search_vectors` returns at most `top_k` results, every returned similarity
score is greater than **or equal to** the threshold (the filter at
`faiss_manager.py:293` skips only `score < similarity_threshold`, so a score
exactly equal to the threshold is returned), and the results are sorted by
descending score with ties broken by ascending internal slot order: the raw
candidate list of the flat scan is strictly ordered that way, and the
returned list, an order-preserving selection from it, has non-increasing
scores. -/
theorem search_vectors_spec (store : Store) (doc : Nat) (d : IndexData)
    (norm : List ℚ → List ℚ) (q : List ℚ) (k : Nat) (t : ℚ)
    (hstore : store doc = some d) :
    search_vectors store doc norm q k t = .ok (searchResults doc d norm q k t) ∧
    (searchResults doc d norm q k t).length ≤ k ∧
    (∀ h ∈ searchResults doc d norm q k t, t ≤ h.similarity_score) ∧
    (searchResults doc d norm q k t).Pairwise
      (fun a b => b.similarity_score ≤ a.similarity_score) ∧
    (rawCandidates d.vectors (norm q) k).Pairwise
      (fun a b => b.1 < a.1 ∨ (a.1 = b.1 ∧ a.2 < b.2)) := by
  refine ⟨?_, ?_, ?_, searchResults_scores_pairwise doc d norm q k t,
    rawCandidates_pairwise d.vectors (norm q) k⟩
  · simp [search_vectors, load_index, hstore]
  · exact (processResults_length_le _ _ _ _ _ _).trans
      (rawCandidates_length_le d.vectors (norm q) k)
  · intro h hm
    exact processResults_score_ge _ _ _ _ _ _ h hm

/-- Witness for C1 (amended) on a one-vector index queried with the
unit-norm vector `[1, 0]` at threshold 1/2. -/
theorem search_vectors_spec_witness :
    (search_vectors (fun d => if d = 0 then some ⟨[[1, 0]], [10], [20]⟩ else none)
        0 id [1, 0] 5 (1/2) =
      .ok (searchResults 0 ⟨[[1, 0]], [10], [20]⟩ id [1, 0] 5 (1/2))) ∧
    (searchResults 0 ⟨[[1, 0]], [10], [20]⟩ id [1, 0] 5 (1/2)).length ≤ 5 ∧
    (∀ h ∈ searchResults 0 ⟨[[1, 0]], [10], [20]⟩ id [1, 0] 5 (1/2),
      (1/2 : ℚ) ≤ h.similarity_score) ∧
    (searchResults 0 ⟨[[1, 0]], [10], [20]⟩ id [1, 0] 5 (1/2)).Pairwise
      (fun a b => b.similarity_score ≤ a.similarity_score) ∧
    (rawCandidates [[1, 0]] (id [1, 0]) 5).Pairwise
      (fun a b => b.1 < a.1 ∨ (a.1 = b.1 ∧ a.2 < b.2)) :=
  search_vectors_spec (fun d => if d = 0 then some ⟨[[1, 0]], [10], [20]⟩ else none)
    0 ⟨[[1, 0]], [10], [20]⟩ id [1, 0] 5 (1/2) rfl

unseal Rat.add Rat.mul in
/-- Counterexample for C1 as frozen: on the index holding the single vector
`[1, 0]`, searching with the (unit-norm, hence `normalize_L2`-invariant)
query `[1, 0]` and threshold 1 returns the hit with score exactly 1 — the
filter keeps scores equal to the threshold, so "strictly greater than the
threshold" is false at this input. -/
theorem search_threshold_not_strict :
    search_vectors (fun d => if d = 0 then some ⟨[[1, 0]], [10], [20]⟩ else none)
        0 id [1, 0] 5 1 =
      .ok [⟨10, 20, 0, 1, 1⟩] ∧
    ¬ ((1 : ℚ) < 1) :=
  ⟨by decide, lt_irrefl 1⟩

unseal Rat.add Rat.mul Rat.sub in
/-- C10: every returned item's `rank` is its 1-based position in the raw
candidate list produced by the index scan — `enumerate` stamps `i + 1`
before the `-1`-slot and threshold `continue`s (`faiss_manager.py:289-304`)
— and consequently the ranks need not be contiguous: on an L2-metric index
(`IndexFlatL2`, `faiss_manager.py:71-72`) holding `[[0]]` and `[[5]]`,
queried with `[1]` at threshold 2, the closest candidate is filtered out and
the single returned result carries rank 2 > 1. -/
theorem rank_is_position_in_raw_candidates :
    (∀ (me mc : List Nat) (doc : Nat) (t : ℚ) (cands : List (ℚ × Int))
        (h : SearchHit), h ∈ processResults me mc doc t cands 0 →
      1 ≤ h.rank ∧
        ∃ slot : Int, cands[h.rank - 1]? = some (h.similarity_score, slot) ∧
          slot ≠ -1 ∧ ¬ h.similarity_score < t) ∧
    (searchResultsL2 0 ⟨[[0], [5]], [10, 11], [20, 21]⟩ id [1] 5 2).map
      (fun h => h.rank) = [2] := by
  constructor
  · intro me mc doc t cands h hm
    obtain ⟨hr, slot, hs, hslot, hlt⟩ :=
      processResults_rank_lookup me mc doc t cands 0 h hm
    exact ⟨hr, slot, by simpa using hs, hslot, hlt⟩
  · decide

unseal Rat.add Rat.mul in
/-- Witness for C10 on the one-candidate list `[(5, 0)]` with threshold 0:
the returned hit has rank 1 and the candidate list holds its score at
position 0. -/
theorem rank_is_position_in_raw_candidates_witness :
    1 ≤ (⟨7, 8, 3, 5, 1⟩ : SearchHit).rank ∧
      ∃ slot : Int, [((5 : ℚ), (0 : Int))][(⟨7, 8, 3, 5, 1⟩ : SearchHit).rank - 1]? =
          some ((⟨7, 8, 3, 5, 1⟩ : SearchHit).similarity_score, slot) ∧
        slot ≠ -1 ∧ ¬ (⟨7, 8, 3, 5, 1⟩ : SearchHit).similarity_score < 0 :=
  rank_is_position_in_raw_candidates.1 [7] [8] 3 0 [((5 : ℚ), (0 : Int))]
    ⟨7, 8, 3, 5, 1⟩ (by decide)
